import Mathlib

/-!
Shallow embedding of the credential / session / authorization core of the
poufmaker API (Next.js route handlers).  Each definition is translated from
the corresponding TypeScript source file:

* `src/app/api/auth/login/route.ts` — two login handler variants in one file
  (separated by a document marker); modelled as `loginV1` and `loginV2`.
* `src/app/api/auth/register/route.ts` (first variant) — `registerV1`.
* `src/unnamed/part_011` — register variant with `Role` support, token with a
  `sub` claim and session-token truncation — `registerV2`.
* `src/unnamed/part_013` — products/[id] GET/PUT/DELETE — `productGET` etc.
* `src/unnamed/part_004` — conversations/[id] GET/PUT/DELETE.
* `src/app/api/conversations/[id]/messages/route.ts` — messages GET/POST.

JavaScript values that may be `undefined`, `null` or a string (request body
fields, decoded JWT claims, nullable DB columns) are modelled by `JsVal`,
with JS strict equality (`===`) as decidable equality on that type; note
that `null !== undefined` holds in JS and in the model.

External libraries are kept abstract: `bcrypt.compare` is an oracle argument
`compare : String → String → Bool`, the JWT wire encoding is an argument
`encode : Jwt → String`, and the zod e-mail format test is an argument
`isEmail : String → Bool`.  The signature scheme of `jsonwebtoken` is
modelled symbolically: a signed token records the payload and the secret it
was signed with, and verification compares secrets and checks expiry.
-/

namespace Poufmaker

/-- A JavaScript value as it appears in request bodies and decoded JWT
payloads: `undefined`, `null`, or a string. -/
inductive JsVal where
  | undef : JsVal
  | null : JsVal
  | str : String → JsVal
deriving DecidableEq, Repr

/-- JS truthiness for the values we model: a string is truthy iff non-empty;
`undefined` and `null` are falsy. -/
def JsVal.truthy : JsVal → Bool
  | .str s => !(s == "")
  | _ => false

/-- JS `a || b`: returns `a` when truthy, else `b`. -/
def jsOr (a b : JsVal) : JsVal := if a.truthy then a else b

/-- Lift an optional claim of a decoded JWT payload to a JS value:
an absent claim reads back as `undefined`. -/
def jsOfClaim : Option String → JsVal
  | none => .undef
  | some s => .str s

/-- Lift a nullable DB column (Prisma `String?`) to a JS value:
`NULL` reads back as `null`. -/
def jsOfColumn : Option String → JsVal
  | none => .null
  | some s => .str s

/-! ## JWT model (`jsonwebtoken`)

`jwt.sign(payload, secret, { expiresIn })` across the auth endpoints uses
three payload shapes; all are instances of one record with optional claims:

* login variants and the `part_010` register: `{ userId, email, role }`;
* the `part_011` register: `{ sub, role }` ("minimal payload").

`expiresIn` becomes the `exp` claim (seconds since epoch). -/

/-- Decoded JWT payload.  Claims the issuers never set are `none` and read
back as `undefined` in JS. -/
structure JwtPayload where
  sub : Option String
  userId : Option String
  email : Option String
  role : String
  exp : Nat
deriving DecidableEq, Repr

/-- A signed token: the payload plus the secret whose signature it carries.
The signature scheme itself is symbolic — verification succeeds exactly when
the verifying secret equals the signing secret. -/
structure Jwt where
  payload : JwtPayload
  signedWith : String
deriving DecidableEq, Repr

/-- `jwt.sign(payload, secret)`. -/
def jwtSign (p : JwtPayload) (secret : String) : Jwt := ⟨p, secret⟩

inductive JwtVerifyError where
  | invalidSignature : JwtVerifyError
  | expired : JwtVerifyError
deriving DecidableEq, Repr

/-- `jwt.verify(token, secret)` at clock time `now` (seconds): throws when
the signature does not validate or the `exp` claim has passed
(`jsonwebtoken` treats `now ≥ exp` as expired). -/
def jwtVerify (t : Jwt) (secret : String) (now : Nat) : Except JwtVerifyError JwtPayload :=
  if t.signedWith ≠ secret then .error .invalidSignature
  else if t.payload.exp ≤ now then .error .expired
  else .ok t.payload

/-- Payload signed by both login variants (login/route.ts lines 111–119 and
330–338) and by the `part_010` register variant: `{ userId, email, role }`,
`expiresIn: "24h"`.  No `sub` claim is set. -/
def loginTokenPayload (uId uEmail uRole : String) (nowSec : Nat) : JwtPayload :=
  { sub := none, userId := some uId, email := some uEmail, role := uRole
    exp := nowSec + 24 * 60 * 60 }

/-- Payload signed by the `part_011` register variant (lines 162–169):
`{ sub, role }`, `expiresIn: "1h"`. -/
def registerTokenPayloadP11 (uId uRole : String) (nowSec : Nat) : JwtPayload :=
  { sub := some uId, userId := none, email := none, role := uRole
    exp := nowSec + 60 * 60 }

/-! ## `verifyToken` (shared helper of part_013, part_004 and the messages
route, identical text in each file)

Reads the bearer token from the `authorization` header (modelled as
`Option Jwt`: `none` when the header is absent or carries no token), calls
`jwt.verify`, and maps every failure — missing token, bad signature,
expiry — to the single error `"Invalid token"`.  On success it returns the
decoded payload, which the callers read through the TS cast
`{ sub: string; role: string }`. -/

/-- What the resource handlers see of a verified token: `decoded.sub` (a JS
value — `undefined` when the issuer set no `sub` claim) and `decoded.role`. -/
structure DecodedToken where
  sub : Option String
  role : String
deriving DecidableEq, Repr

/-- The `verifyToken` helper of part_013 / part_004 / messages route. -/
def verifyToken (authToken : Option Jwt) (secret : String) (now : Nat) :
    Except String DecodedToken :=
  match authToken with
  | none => .error "Invalid token"
  | some t =>
    match jwtVerify t secret now with
    | .ok p => .ok ⟨p.sub, p.role⟩
    | .error _ => .error "Invalid token"

/-! ## Ownable resources (prisma/schema.prisma)

`products.CreatorId` is `String` (non-nullable); `conversations.UserId` is
`String?` (nullable).  Only the fields the handlers consult are modelled. -/

structure Product where
  Id : String
  CreatorId : String
deriving DecidableEq, Repr

structure Conversation where
  Id : String
  UserId : Option String
deriving DecidableEq, Repr

/-- part_013 lines 251 and 403:
`existingProduct.CreatorId !== decoded.sub && decoded.role !== 'admin'`.
JS strict inequality between the column string and the (possibly
`undefined`) `sub` claim. -/
def productPermissionDenied (p : Product) (d : DecodedToken) : Bool :=
  (JsVal.str p.CreatorId != jsOfClaim d.sub) && (d.role != "admin")

/-- part_004 lines 118/247/392 and messages route lines 151/320:
`conversation.UserId !== decoded.sub && decoded.role !== 'admin'`.
The column is nullable: a `NULL` owner compares as JS `null`, which is
strictly unequal both to `undefined` and to every string. -/
def conversationAccessDenied (c : Conversation) (d : DecodedToken) : Bool :=
  (jsOfColumn c.UserId != jsOfClaim d.sub) && (d.role != "admin")

/-! ## Resource handler outcomes

Each handler is modelled as a function from its authorization input (the
optional bearer token), the clock, the DB lookup result for the target
resource, and — where the handler parses a body or query string after the
permission check — a flag saying whether that parse succeeds.  The result is
the HTTP status the source returns on that path. -/

/-- part_013 GET /api/products/[id]: 401 on bad token, 404 when the product
is absent, otherwise 200 (no ownership check in this handler). -/
def productGET (tok : Option Jwt) (secret : String) (now : Nat)
    (lookup : Option Product) : Nat :=
  match verifyToken tok secret now with
  | .error _ => 401
  | .ok _ =>
    match lookup with
    | none => 404
    | some _ => 200

/-- part_013 PUT /api/products/[id]: 401, then 404 when absent, then 403 on
the permission check, then body validation (400) and update (200). -/
def productPUT (tok : Option Jwt) (secret : String) (now : Nat)
    (lookup : Option Product) (bodyValid : Bool) : Nat :=
  match verifyToken tok secret now with
  | .error _ => 401
  | .ok d =>
    match lookup with
    | none => 404
    | some p =>
      if productPermissionDenied p d then 403
      else if bodyValid then 200 else 400

/-- part_013 DELETE /api/products/[id]: 401, 404, 403, else 200. -/
def productDELETE (tok : Option Jwt) (secret : String) (now : Nat)
    (lookup : Option Product) : Nat :=
  match verifyToken tok secret now with
  | .error _ => 401
  | .ok d =>
    match lookup with
    | none => 404
    | some p =>
      if productPermissionDenied p d then 403 else 200

/-- part_004 GET /api/conversations/[id]: 401, 404, 403, else 200. -/
def conversationGET (tok : Option Jwt) (secret : String) (now : Nat)
    (lookup : Option Conversation) : Nat :=
  match verifyToken tok secret now with
  | .error _ => 401
  | .ok d =>
    match lookup with
    | none => 404
    | some c =>
      if conversationAccessDenied c d then 403 else 200

/-- part_004 PUT /api/conversations/[id]: 401, 404, 403, then body
validation (400) and update (200). -/
def conversationPUT (tok : Option Jwt) (secret : String) (now : Nat)
    (lookup : Option Conversation) (bodyValid : Bool) : Nat :=
  match verifyToken tok secret now with
  | .error _ => 401
  | .ok d =>
    match lookup with
    | none => 404
    | some c =>
      if conversationAccessDenied c d then 403
      else if bodyValid then 200 else 400

/-- part_004 DELETE /api/conversations/[id]: 401, 404, 403, else 200. -/
def conversationDELETE (tok : Option Jwt) (secret : String) (now : Nat)
    (lookup : Option Conversation) : Nat :=
  match verifyToken tok secret now with
  | .error _ => 401
  | .ok d =>
    match lookup with
    | none => 404
    | some c =>
      if conversationAccessDenied c d then 403 else 200

/-- messages route GET /api/conversations/[id]/messages: 401, 404, 403, then
query-string parsing — whose zod failure is not matched by the catch block
and surfaces as 500 — else 200. -/
def messagesGET (tok : Option Jwt) (secret : String) (now : Nat)
    (lookup : Option Conversation) (queryValid : Bool) : Nat :=
  match verifyToken tok secret now with
  | .error _ => 401
  | .ok d =>
    match lookup with
    | none => 404
    | some c =>
      if conversationAccessDenied c d then 403
      else if queryValid then 200 else 500

/-- messages route POST /api/conversations/[id]/messages: 401, 404, 403,
then body validation (400) and creation (201). -/
def messagesPOST (tok : Option Jwt) (secret : String) (now : Nat)
    (lookup : Option Conversation) (bodyValid : Bool) : Nat :=
  match verifyToken tok secret now with
  | .error _ => 401
  | .ok d =>
    match lookup with
    | none => 404
    | some c =>
      if conversationAccessDenied c d then 403
      else if bodyValid then 201 else 400

end Poufmaker

namespace Poufmaker

/-! ## Stored rows (prisma models `users`, `usersessions`, `userloginhistory`)

Only the columns the modelled handlers write or read are kept.  Row `Id`
columns are fresh UUIDs in the source; the UUID generator is external, so
fresh identifiers are passed in as arguments where a row's identity matters
and omitted from the row records otherwise. -/

structure StoredUser where
  Id : String
  Email : String
  FullName : String
  Role : String
  PasswordHash : String
  PasswordSalt : String
  PhoneNumber : Option String
deriving DecidableEq, Repr

structure SessionRow where
  UserId : String
  Token : String
  ExpiresAt : Nat
  IpAddress : String
  UserAgent : String
deriving DecidableEq, Repr

structure HistoryRow where
  UserId : String
  Successful : Bool
  FailureReason : Option String
  IpAddress : String
  UserAgent : String
deriving DecidableEq, Repr

/-- The user object of the variant-2 login / both register success responses:
lower-case keys `{id, email, fullName, role}`. -/
structure UserView where
  id : String
  email : String
  fullName : String
  role : String
deriving DecidableEq, Repr

/-- The user object of the variant-1 login success response: capitalised
keys `{Id, Email, FullName, Role}`. -/
structure UserViewCap where
  Id : String
  Email : String
  FullName : String
  Role : String
deriving DecidableEq, Repr

/-- Projection used by every success response builder. -/
def viewOf (u : StoredUser) : UserView := ⟨u.Id, u.Email, u.FullName, u.Role⟩

def viewCapOf (u : StoredUser) : UserViewCap := ⟨u.Id, u.Email, u.FullName, u.Role⟩

/-! ## zod field validation

zod collects issues per field in schema key order; the handlers return
`error.errors[0].message`, i.e. the first failing field's message.  Messages
configured in the source are reproduced verbatim; zod's built-in messages
for missing / null fields are abbreviated to their leading words. -/

/-- `z.string().email(msg)` on a JS value. -/
def emailFieldError (isEmail : String → Bool) (v : JsVal) : Option String :=
  match v with
  | .str s => if isEmail s then none else some "Invalid email format"
  | .undef => some "Required"
  | .null => some "Expected string, received null"

/-- `z.string().min(n, msg)` on a JS value. -/
def minLenFieldError (n : Nat) (msg : String) (v : JsVal) : Option String :=
  match v with
  | .str s => if s.length < n then some msg else none
  | .undef => some "Required"
  | .null => some "Expected string, received null"

/-- `z.string().optional()` on a JS value: `undefined` is accepted. -/
def optionalStringFieldError (v : JsVal) : Option String :=
  match v with
  | .null => some "Expected string, received null"
  | _ => none

/-- `z.enum(["client", "admin", "upholsterer"]).default("client")` on a JS
value: `undefined` takes the default, `null` is rejected, a string must be
one of the three roles. -/
def roleEnumFieldError (v : JsVal) : Option String :=
  match v with
  | .str s =>
    if s == "client" || s == "admin" || s == "upholsterer" then none
    else some "Invalid enum value"
  | .undef => none
  | .null => some "Expected string, received null"

/-- `registerSchema` of src/app/api/auth/register/route.ts (first variant),
lines 72–77: `fullName` min 1, `email` format, `password` **min 6**,
`phoneNumber` optional.  Returns the first issue's message. -/
def registerSchemaV1FirstError (isEmail : String → Bool)
    (fullName email password phoneNumber : JsVal) : Option String :=
  (minLenFieldError 1 "Full name is required" fullName).orElse fun _ =>
  (emailFieldError isEmail email).orElse fun _ =>
  (minLenFieldError 6 "Password must be at least 6 characters" password).orElse fun _ =>
  optionalStringFieldError phoneNumber

/-- `registerSchema` of part_011 (and part_010), lines 16–22: `Email`
format, `Password` **min 8**, `FullName` min 1, `PhoneNumber` optional,
`Role` enum defaulting to `client`. -/
def registerSchemaV2FirstError (isEmail : String → Bool)
    (tEmail tPassword tFullName tPhoneNumber tRole : JsVal) : Option String :=
  (emailFieldError isEmail tEmail).orElse fun _ =>
  (minLenFieldError 8 "Password must be at least 8 characters" tPassword).orElse fun _ =>
  (minLenFieldError 1 "Full name is required" tFullName).orElse fun _ =>
  (optionalStringFieldError tPhoneNumber).orElse fun _ =>
  roleEnumFieldError tRole

/-! ## Login handlers (src/app/api/auth/login/route.ts, two variants)

The backing store is abstracted to a read oracle `find : String → Option
StoredUser` plus per-write failure switches: a switch set to `true` makes
the corresponding awaited `prisma...create`/`update` call throw, in which
case control reaches the handler's `catch` block.  `bcrypt.compare` is the
oracle `compare`, the JWT wire encoding is `encode`, and `now` is
`Date.now()` in milliseconds (token `exp` claims use seconds). -/

structure StoreBehavior where
  sessionCreateFails : Bool
  historyCreateFails : Bool
  userUpdateFails : Bool
deriving DecidableEq, Repr

inductive LoginBody where
  | err : String → LoginBody
  | okV1 : Jwt → UserViewCap → LoginBody
  | okV2 : String → UserView → Jwt → LoginBody
deriving DecidableEq, Repr

structure LoginResult where
  status : Nat
  body : LoginBody
  newSessions : List SessionRow
  newHistory : List HistoryRow
  lastLoginTouched : Bool
deriving DecidableEq, Repr

/-- The HTTP response content of a login outcome: status plus body. -/
def LoginResult.response (r : LoginResult) : Nat × LoginBody := (r.status, r.body)

/-- First login variant (login/route.ts lines 61–175).  Failure branches
return `"Invalid email or password"`; the wrong-password branch writes **no**
history row; on success the handler updates `LastLoginDate`, signs the
token, creates the session row, then the (successful) history row; any
thrown write lands in `catch` → 500 `"Something went wrong"`. -/
def loginV1 (find : String → Option StoredUser) (compare : String → String → Bool)
    (isEmail : String → Bool) (st : StoreBehavior) (encode : Jwt → String)
    (secret : String) (now : Nat) (email password ip ua : String) : LoginResult :=
  if !isEmail email then
    ⟨400, .err "Invalid email format", [], [], false⟩
  else if password.length < 1 then
    ⟨400, .err "Password is required", [], [], false⟩
  else
    match find email with
    | none => ⟨401, .err "Invalid email or password", [], [], false⟩
    | some u =>
      if !(compare password u.PasswordHash) then
        ⟨401, .err "Invalid email or password", [], [], false⟩
      else if st.userUpdateFails then
        ⟨500, .err "Something went wrong", [], [], false⟩
      else
        let token := jwtSign (loginTokenPayload u.Id u.Email u.Role (now / 1000)) secret
        if st.sessionCreateFails then
          ⟨500, .err "Something went wrong", [], [], true⟩
        else
          let srow : SessionRow :=
            ⟨u.Id, encode token, now + 24 * 60 * 60 * 1000, ip, ua⟩
          if st.historyCreateFails then
            ⟨500, .err "Something went wrong", [srow], [], true⟩
          else
            let hrow : HistoryRow := ⟨u.Id, true, none, ip, ua⟩
            ⟨200, .okV1 token (viewCapOf u), [srow], [hrow], true⟩

/-- Second login variant (login/route.ts lines 190–422).  Failure branches
return `"Invalid credentials"`; the wrong-password branch writes one failed
history row (`Successful: false`, `FailureReason: "Invalid password"`); on
success the order is token, session row, history row, `LastLoginDate`
update; any thrown write lands in `catch` → 500 `"Internal server error"`. -/
def loginV2 (find : String → Option StoredUser) (compare : String → String → Bool)
    (isEmail : String → Bool) (st : StoreBehavior) (encode : Jwt → String)
    (secret : String) (now : Nat) (email password ip ua : String) : LoginResult :=
  if !isEmail email then
    ⟨400, .err "Invalid email format", [], [], false⟩
  else if password.length < 1 then
    ⟨400, .err "Password is required", [], [], false⟩
  else
    match find email with
    | none => ⟨401, .err "Invalid credentials", [], [], false⟩
    | some u =>
      if !(compare password u.PasswordHash) then
        if st.historyCreateFails then
          ⟨500, .err "Internal server error", [], [], false⟩
        else
          ⟨401, .err "Invalid credentials", [],
            [⟨u.Id, false, some "Invalid password", ip, ua⟩], false⟩
      else
        let token := jwtSign (loginTokenPayload u.Id u.Email u.Role (now / 1000)) secret
        if st.sessionCreateFails then
          ⟨500, .err "Internal server error", [], [], false⟩
        else
          let srow : SessionRow :=
            ⟨u.Id, encode token, now + 24 * 60 * 60 * 1000, ip, ua⟩
          if st.historyCreateFails then
            ⟨500, .err "Internal server error", [srow], [], false⟩
          else
            let hrow : HistoryRow := ⟨u.Id, true, none, ip, ua⟩
            if st.userUpdateFails then
              ⟨500, .err "Internal server error", [srow], [hrow], false⟩
            else
              ⟨200, .okV2 "Login successful" (viewOf u) token, [srow], [hrow], true⟩

end Poufmaker

namespace Poufmaker

/-! ## Register handlers -/

inductive RegisterBody where
  | err : String → RegisterBody
  | okV1 : String → UserView → RegisterBody
  | okV2 : String → UserView → Jwt → RegisterBody
deriving DecidableEq, Repr

structure RegisterResult where
  status : Nat
  body : RegisterBody
  createdUsers : List StoredUser
  newSessions : List SessionRow
  newHistory : List HistoryRow
deriving DecidableEq, Repr

/-- The HTTP response content of a register outcome: status plus body. -/
def RegisterResult.response (r : RegisterResult) : Nat × RegisterBody := (r.status, r.body)

/-- First register variant (register/route.ts lines 72–159).  zod schema
with `password` minimum length **6**; duplicate e-mail → 400; on success a
user row is created with `Role: "client"` and the 201 response carries
`{message, user: {id, email, fullName, role}}` — no token, no session row,
no history row.  `salt` abstracts `bcrypt.genSalt(10)` and `hashOf` abstracts
`bcrypt.hash`. -/
def registerV1 (find : String → Option StoredUser) (isEmail : String → Bool)
    (hashOf : String → String → String) (salt newId : String)
    (fullName email password phoneNumber : JsVal) : RegisterResult :=
  match registerSchemaV1FirstError isEmail fullName email password phoneNumber with
  | some msg => ⟨400, .err msg, [], [], []⟩
  | none =>
    match fullName, email, password with
    | .str vFullName, .str vEmail, .str vPassword =>
      match find vEmail with
      | some _ => ⟨400, .err "User with this email already exists", [], [], []⟩
      | none =>
        let u : StoredUser :=
          { Id := newId, Email := vEmail, FullName := vFullName, Role := "client"
            PasswordHash := hashOf vPassword salt, PasswordSalt := salt
            PhoneNumber := match phoneNumber with | .str s => some s | _ => none }
        ⟨201, .okV1 "User registered successfully" (viewOf u), [u], [], []⟩
    | _, _, _ => ⟨400, .err "Required", [], [], []⟩

/-- JS `token.substring(0, 250)` (part_011 line 176): the first 250
characters, or the whole string when it is shorter. -/
def jsSubstring250 (s : String) : String := ⟨s.data.take 250⟩

/-- The `transformedBody` coalescing of part_011 lines 101–107: each field
is `body.Capitalised || body.lowercase`, and `Role` additionally falls back
to `"client"`; JS `||` takes the second operand whenever the first is
falsy — `undefined`, `null` **or the empty string**. -/
def transformedRole (bodyRole bodyrole : JsVal) : JsVal :=
  jsOr bodyRole (jsOr bodyrole (.str "client"))

/-- Second register variant (part_011 lines 91–245).  The body fields come
in either casing and are coalesced by `transformedBody`; zod schema with
`Password` minimum length **8** and a `Role` enum; duplicate e-mail → 400
`"Email already registered"`; on success a user row stores the validated
`Role` verbatim, a token `{sub, role}` with 1 h expiry is signed, a session
row stores the token string truncated to 250 characters, one successful
history row is written, and the 201 response carries
`{message, user: {id, email, fullName, role}, token}`. -/
def registerV2 (find : String → Option StoredUser) (isEmail : String → Bool)
    (hashOf : String → String → String) (encode : Jwt → String)
    (salt newId secret : String) (now : Nat) (ip ua : String)
    (bodyEmail bodyemail bodyPassword bodypassword bodyFullName bodyfullName
      bodyPhoneNumber bodyphoneNumber bodyRole bodyrole : JsVal) : RegisterResult :=
  let tEmail := jsOr bodyEmail bodyemail
  let tPassword := jsOr bodyPassword bodypassword
  let tFullName := jsOr bodyFullName bodyfullName
  let tPhoneNumber := jsOr bodyPhoneNumber bodyphoneNumber
  let tRole := transformedRole bodyRole bodyrole
  match registerSchemaV2FirstError isEmail tEmail tPassword tFullName tPhoneNumber tRole with
  | some msg => ⟨400, .err msg, [], [], []⟩
  | none =>
    match tEmail, tPassword, tFullName, tRole with
    | .str vEmail, .str vPassword, .str vFullName, .str vRole =>
      match find vEmail with
      | some _ => ⟨400, .err "Email already registered", [], [], []⟩
      | none =>
        let u : StoredUser :=
          { Id := newId, Email := vEmail, FullName := vFullName, Role := vRole
            PasswordHash := hashOf vPassword salt, PasswordSalt := salt
            PhoneNumber := match tPhoneNumber with | .str s => some s | _ => none }
        let token := jwtSign (registerTokenPayloadP11 u.Id u.Role (now / 1000)) secret
        let srow : SessionRow :=
          ⟨u.Id, jsSubstring250 (encode token), now + 60 * 60 * 1000, ip, ua⟩
        let hrow : HistoryRow := ⟨u.Id, true, none, ip, ua⟩
        ⟨201, .okV2 "User registered successfully" (viewOf u) token, [u], [srow], [hrow]⟩
    | _, _, _, _ => ⟨400, .err "Required", [], [], []⟩

end Poufmaker

namespace Poufmaker

/-- Helper: the product permission check of part_013 grants access exactly
when the decoded role is `admin` or the decoded `sub` claim equals the
product's `CreatorId`. -/
theorem productPermissionDenied_eq_false_iff (p : Product) (pid role : String) :
    productPermissionDenied p ⟨some pid, role⟩ = false ↔
      (role = "admin" ∨ pid = p.CreatorId) := by
  simp [productPermissionDenied, jsOfClaim]
  constructor
  · intro h
    by_cases hp : p.CreatorId = pid
    · exact Or.inr hp.symm
    · exact Or.inl (h hp)
  · intro h hp
    rcases h with h | h
    · exact h
    · exact absurd h.symm hp

/-- Helper: the conversation access check of part_004 / the messages route,
for a conversation whose `UserId` column is non-NULL, grants access exactly
when the decoded role is `admin` or the decoded `sub` claim equals the
owner id. -/
theorem conversationAccessDenied_eq_false_iff (cid oid pid role : String) :
    conversationAccessDenied ⟨cid, some oid⟩ ⟨some pid, role⟩ = false ↔
      (role = "admin" ∨ pid = oid) := by
  simp [conversationAccessDenied, jsOfClaim, jsOfColumn]
  constructor
  · intro h
    by_cases hp : oid = pid
    · exact Or.inr hp.symm
    · exact Or.inl (h hp)
  · intro h hp
    rcases h with h | h
    · exact h
    · exact absurd h.symm hp

/-- C1 counterexample: the claim says a token issued by the authentication
endpoints, verified before expiry, recovers exactly the principal's subject
(user id).  A token issued by the login endpoints for user `"user-1"`
(payload `{userId, email, role}`, no `sub` claim) verifies successfully at
time 100 < expiry, but the recovered `sub` is `undefined` (`none`), not
`"user-1"`: the subject is not recovered. -/
theorem C1_login_token_subject_counterexample :
    verifyToken (some (jwtSign (loginTokenPayload "user-1" "a@b.c" "client" 0) "secret"))
        "secret" 100 = .ok ⟨none, "client"⟩ ∧
      (none : Option String) ≠ some "user-1" := by
  constructor
  · rfl
  · decide

/-- C1 (amended): a token issued by the part_011 register endpoint (payload
`{sub, role}`, 1 h expiry), verified by `verifyToken` before its expiry,
succeeds and recovers exactly the subject (user id) and role; verified at or
after expiry it fails with `"Invalid token"`.  A token issued by the login
endpoints (payload `{userId, email, role}`, 24 h expiry, no `sub` claim)
verifies successfully before expiry and recovers the role, but its `sub`
reads back as `undefined`; at or after expiry it fails with
`"Invalid token"`. -/
theorem C1_token_roundtrip_amended (uId uEmail uRole secret : String)
    (issuedAt now : Nat) :
    (now < issuedAt + 60 * 60 →
      verifyToken (some (jwtSign (registerTokenPayloadP11 uId uRole issuedAt) secret))
          secret now = .ok ⟨some uId, uRole⟩) ∧
    (issuedAt + 60 * 60 ≤ now →
      verifyToken (some (jwtSign (registerTokenPayloadP11 uId uRole issuedAt) secret))
          secret now = .error "Invalid token") ∧
    (now < issuedAt + 24 * 60 * 60 →
      verifyToken (some (jwtSign (loginTokenPayload uId uEmail uRole issuedAt) secret))
          secret now = .ok ⟨none, uRole⟩) ∧
    (issuedAt + 24 * 60 * 60 ≤ now →
      verifyToken (some (jwtSign (loginTokenPayload uId uEmail uRole issuedAt) secret))
          secret now = .error "Invalid token") := by
  refine ⟨fun h => ?_, fun h => ?_, fun h => ?_, fun h => ?_⟩ <;>
      simp [verifyToken, jwtVerify, jwtSign, registerTokenPayloadP11, loginTokenPayload]
  · rw [if_neg (by omega)]
  · rw [if_pos (by omega)]
  · rw [if_neg (by omega)]
  · rw [if_pos (by omega)]

/-- C1 witness: the amended round-trip evaluated on concrete tokens, before
and after expiry. -/
theorem C1_token_roundtrip_amended_witness :
    verifyToken (some (jwtSign (registerTokenPayloadP11 "u1" "client" 0) "k")) "k" 100
        = .ok ⟨some "u1", "client"⟩ ∧
      verifyToken (some (jwtSign (registerTokenPayloadP11 "u1" "client" 0) "k")) "k" 5000
        = .error "Invalid token" ∧
      verifyToken (some (jwtSign (loginTokenPayload "u1" "e@x" "client" 0) "k")) "k" 100
        = .ok ⟨none, "client"⟩ ∧
      verifyToken (some (jwtSign (loginTokenPayload "u1" "e@x" "client" 0) "k")) "k" 90000
        = .error "Invalid token" :=
  ⟨(C1_token_roundtrip_amended "u1" "e@x" "client" "k" 0 100).1 (by decide),
   (C1_token_roundtrip_amended "u1" "e@x" "client" "k" 0 5000).2.1 (by decide),
   (C1_token_roundtrip_amended "u1" "e@x" "client" "k" 0 100).2.2.1 (by decide),
   (C1_token_roundtrip_amended "u1" "e@x" "client" "k" 0 90000).2.2.2 (by decide)⟩

/-- C2: for a principal authenticated with a verified token carrying subject
`pid` and role `role`, each of the four operations — product update, product
delete, conversation read, sending a message — is allowed (does not answer
403) exactly when the role is `admin` or the principal's id equals the
resource's creator/owner id, uniformly across resource types. -/
theorem C2_ownership_decision_rule (pid role secret cid oid : String)
    (now expires : Nat) (p : Product) (bodyValid msgValid : Bool)
    (hnow : now < expires) :
    (productPUT (some (jwtSign ⟨some pid, none, none, role, expires⟩ secret))
        secret now (some p) bodyValid ≠ 403 ↔ (role = "admin" ∨ pid = p.CreatorId)) ∧
    (productDELETE (some (jwtSign ⟨some pid, none, none, role, expires⟩ secret))
        secret now (some p) ≠ 403 ↔ (role = "admin" ∨ pid = p.CreatorId)) ∧
    (conversationGET (some (jwtSign ⟨some pid, none, none, role, expires⟩ secret))
        secret now (some ⟨cid, some oid⟩) ≠ 403 ↔ (role = "admin" ∨ pid = oid)) ∧
    (messagesPOST (some (jwtSign ⟨some pid, none, none, role, expires⟩ secret))
        secret now (some ⟨cid, some oid⟩) msgValid ≠ 403 ↔ (role = "admin" ∨ pid = oid)) := by
  have hv : verifyToken (some (jwtSign ⟨some pid, none, none, role, expires⟩ secret))
      secret now = .ok ⟨some pid, role⟩ := by
    simp [verifyToken, jwtVerify, jwtSign]
    rw [if_neg (by omega)]
  refine ⟨?_, ?_, ?_, ?_⟩
  · rw [← productPermissionDenied_eq_false_iff p pid role]
    simp only [productPUT, hv]
    rcases h : productPermissionDenied p ⟨some pid, role⟩ <;> cases bodyValid <;> simp
  · rw [← productPermissionDenied_eq_false_iff p pid role]
    simp only [productDELETE, hv]
    rcases h : productPermissionDenied p ⟨some pid, role⟩ <;> simp
  · rw [← conversationAccessDenied_eq_false_iff cid oid pid role]
    simp only [conversationGET, hv]
    rcases h : conversationAccessDenied ⟨cid, some oid⟩ ⟨some pid, role⟩ <;> simp
  · rw [← conversationAccessDenied_eq_false_iff cid oid pid role]
    simp only [messagesPOST, hv]
    rcases h : conversationAccessDenied ⟨cid, some oid⟩ ⟨some pid, role⟩ <;>
      cases msgValid <;> simp

/-- C2 witness: the decision rule evaluated for a concrete owner, a concrete
non-owner, and a concrete admin. -/
theorem C2_ownership_decision_rule_witness :
    (productPUT (some (jwtSign ⟨some "alice", none, none, "client", 10⟩ "k"))
        "k" 0 (some ⟨"p1", "alice"⟩) true ≠ 403 ↔
      ("client" = "admin" ∨ "alice" = "alice")) ∧
    (productDELETE (some (jwtSign ⟨some "bob", none, none, "client", 10⟩ "k"))
        "k" 0 (some ⟨"p1", "alice"⟩) ≠ 403 ↔
      ("client" = "admin" ∨ "bob" = "alice")) ∧
    (conversationGET (some (jwtSign ⟨some "bob", none, none, "admin", 10⟩ "k"))
        "k" 0 (some ⟨"c1", some "alice"⟩) ≠ 403 ↔
      ("admin" = "admin" ∨ "bob" = "alice")) :=
  ⟨((C2_ownership_decision_rule "alice" "client" "k" "c1" "alice" 0 10
      ⟨"p1", "alice"⟩ true true (by decide)).1),
   ((C2_ownership_decision_rule "bob" "client" "k" "c1" "alice" 0 10
      ⟨"p1", "alice"⟩ true true (by decide)).2.1),
   ((C2_ownership_decision_rule "bob" "admin" "k" "c1" "alice" 0 10
      ⟨"p1", "alice"⟩ true true (by decide)).2.2.1)⟩

end Poufmaker

namespace Poufmaker

/-- C3: with a valid token, every per-resource handler answers 404 when the
target resource is absent, regardless of the decoded principal; the product
GET handler never answers 403 at all; and every other handler can answer 403
only when the resource lookup found a resource — existence is decided before
ownership in product GET/PUT/DELETE, conversation GET/PUT/DELETE and message
GET/POST. -/
theorem C3_notfound_before_forbidden (tok : Option Jwt) (secret : String)
    (now : Nat) (d : DecodedToken) (bv qv : Bool)
    (pl : Option Product) (cl : Option Conversation) :
    (verifyToken tok secret now = .ok d →
      productGET tok secret now none = 404 ∧
      productPUT tok secret now none bv = 404 ∧
      productDELETE tok secret now none = 404 ∧
      conversationGET tok secret now none = 404 ∧
      conversationPUT tok secret now none bv = 404 ∧
      conversationDELETE tok secret now none = 404 ∧
      messagesGET tok secret now none qv = 404 ∧
      messagesPOST tok secret now none bv = 404) ∧
    (∀ pl2 : Option Product, productGET tok secret now pl2 ≠ 403) ∧
    (productPUT tok secret now pl bv = 403 → pl.isSome = true) ∧
    (productDELETE tok secret now pl = 403 → pl.isSome = true) ∧
    (conversationGET tok secret now cl = 403 → cl.isSome = true) ∧
    (conversationPUT tok secret now cl bv = 403 → cl.isSome = true) ∧
    (conversationDELETE tok secret now cl = 403 → cl.isSome = true) ∧
    (messagesGET tok secret now cl qv = 403 → cl.isSome = true) ∧
    (messagesPOST tok secret now cl bv = 403 → cl.isSome = true) := by
  refine ⟨fun h => ?_, fun pl2 => ?_, fun h => ?_, fun h => ?_, fun h => ?_,
    fun h => ?_, fun h => ?_, fun h => ?_, fun h => ?_⟩
  · simp [productGET, productPUT, productDELETE, conversationGET, conversationPUT,
      conversationDELETE, messagesGET, messagesPOST, h]
  · cases pl2 with
    | none => cases hv : verifyToken tok secret now <;> simp [productGET, hv]
    | some p => cases hv : verifyToken tok secret now <;> simp [productGET, hv]
  · cases pl with
    | some _ => rfl
    | none => cases hv : verifyToken tok secret now <;> simp [productPUT, hv] at h
  · cases pl with
    | some _ => rfl
    | none => cases hv : verifyToken tok secret now <;> simp [productDELETE, hv] at h
  · cases cl with
    | some _ => rfl
    | none => cases hv : verifyToken tok secret now <;> simp [conversationGET, hv] at h
  · cases cl with
    | some _ => rfl
    | none => cases hv : verifyToken tok secret now <;> simp [conversationPUT, hv] at h
  · cases cl with
    | some _ => rfl
    | none => cases hv : verifyToken tok secret now <;> simp [conversationDELETE, hv] at h
  · cases cl with
    | some _ => rfl
    | none => cases hv : verifyToken tok secret now <;> simp [messagesGET, hv] at h
  · cases cl with
    | some _ => rfl
    | none => cases hv : verifyToken tok secret now <;> simp [messagesPOST, hv] at h

/-- C3 witness: a concrete valid token; an absent product gives 404, and
concrete 403 outcomes occur only at present resources. -/
theorem C3_notfound_before_forbidden_witness :
    productPUT (some (jwtSign ⟨some "bob", none, none, "client", 10⟩ "k"))
        "k" 0 none true = 404 ∧
      (some (⟨"p1", "alice"⟩ : Product)).isSome = true ∧
      (some (⟨"c1", some "alice"⟩ : Conversation)).isSome = true :=
  ⟨((C3_notfound_before_forbidden
      (some (jwtSign ⟨some "bob", none, none, "client", 10⟩ "k")) "k" 0
      ⟨some "bob", "client"⟩ true true (some ⟨"p1", "alice"⟩)
      (some ⟨"c1", some "alice"⟩)).1 rfl).2.1,
   (C3_notfound_before_forbidden
      (some (jwtSign ⟨some "bob", none, none, "client", 10⟩ "k")) "k" 0
      ⟨some "bob", "client"⟩ true true (some ⟨"p1", "alice"⟩)
      (some ⟨"c1", some "alice"⟩)).2.2.1 rfl,
   (C3_notfound_before_forbidden
      (some (jwtSign ⟨some "bob", none, none, "client", 10⟩ "k")) "k" 0
      ⟨some "bob", "client"⟩ true true (some ⟨"p1", "alice"⟩)
      (some ⟨"c1", some "alice"⟩)).2.2.2.2.1 rfl⟩

end Poufmaker

namespace Poufmaker

/-! Concrete store fixtures used by witnesses and counterexamples. -/

/-- A concrete stored user whose password hash is the string `"pw"`. -/
def u0 : StoredUser := ⟨"u1", "b@x", "Alice", "client", "pw", "salt", none⟩

/-- A concrete user table: only the e-mail `"b@x"` is registered. -/
def findFixture : String → Option StoredUser :=
  fun e => if e == "b@x" then some u0 else none

/-- A concrete password oracle: the password verifies iff it equals the
stored hash string. -/
def compareFixture : String → String → Bool := fun p h => p == h

/-- A concrete e-mail format oracle accepting everything. -/
def isEmailFixture : String → Bool := fun _ => true

/-- A concrete JWT wire encoding. -/
def encodeFixture : Jwt → String := fun _ => "tok"

/-- Store behavior in which every write succeeds. -/
def stOk : StoreBehavior := ⟨false, false, false⟩

/-- Store behavior in which the session-row insert throws. -/
def stSessionFail : StoreBehavior := ⟨true, false, false⟩

/-- Store behavior in which the login-history insert throws. -/
def stHistFail : StoreBehavior := ⟨false, true, false⟩

/-- C4: for a well-formed login request, the unknown-e-mail failure and the
wrong-password failure produce the identical response in each login variant:
status 401 with body `{error: "Invalid email or password"}` in the first
variant and `{error: "Invalid credentials"}` in the second — the two causes
are indistinguishable by response content.  (The second variant's
wrong-password branch first writes its audit row; the store write is assumed
to succeed.) -/
theorem C4_invalid_credentials_indistinguishable
    (find : String → Option StoredUser) (compare : String → String → Bool)
    (isEmail : String → Bool) (st : StoreBehavior) (encode : Jwt → String)
    (secret : String) (now : Nat) (e p ip ua : String) (u : StoredUser)
    (he : isEmail e = true) (hp : 1 ≤ p.length) :
    (find e = none →
      (loginV1 find compare isEmail st encode secret now e p ip ua).response
          = (401, .err "Invalid email or password") ∧
      (loginV2 find compare isEmail st encode secret now e p ip ua).response
          = (401, .err "Invalid credentials")) ∧
    (find e = some u → compare p u.PasswordHash = false →
      (loginV1 find compare isEmail st encode secret now e p ip ua).response
          = (401, .err "Invalid email or password") ∧
      (st.historyCreateFails = false →
        (loginV2 find compare isEmail st encode secret now e p ip ua).response
            = (401, .err "Invalid credentials"))) := by
  refine ⟨fun h => ?_, fun h hc => ?_⟩
  · constructor <;>
      simp [loginV1, loginV2, LoginResult.response, he, h, Nat.not_lt.mpr hp]
  · refine ⟨?_, fun hh => ?_⟩
    · simp [loginV1, LoginResult.response, he, h, hc, Nat.not_lt.mpr hp]
    · simp [loginV2, LoginResult.response, he, h, hc, hh, Nat.not_lt.mpr hp]

/-- C4 witness: both failure causes evaluated on a concrete store — the
responses coincide per variant. -/
theorem C4_invalid_credentials_indistinguishable_witness :
    (loginV1 findFixture compareFixture isEmailFixture stOk encodeFixture
        "k" 0 "a@x" "z" "ip" "ua").response = (401, .err "Invalid email or password") ∧
      (loginV2 findFixture compareFixture isEmailFixture stOk encodeFixture
        "k" 0 "a@x" "z" "ip" "ua").response = (401, .err "Invalid credentials") ∧
      (loginV1 findFixture compareFixture isEmailFixture stOk encodeFixture
        "k" 0 "b@x" "wrong" "ip" "ua").response = (401, .err "Invalid email or password") ∧
      (loginV2 findFixture compareFixture isEmailFixture stOk encodeFixture
        "k" 0 "b@x" "wrong" "ip" "ua").response = (401, .err "Invalid credentials") :=
  ⟨((C4_invalid_credentials_indistinguishable findFixture compareFixture isEmailFixture
      stOk encodeFixture "k" 0 "a@x" "z" "ip" "ua" u0 rfl (by decide)).1 rfl).1,
   ((C4_invalid_credentials_indistinguishable findFixture compareFixture isEmailFixture
      stOk encodeFixture "k" 0 "a@x" "z" "ip" "ua" u0 rfl (by decide)).1 rfl).2,
   ((C4_invalid_credentials_indistinguishable findFixture compareFixture isEmailFixture
      stOk encodeFixture "k" 0 "b@x" "wrong" "ip" "ua" u0 rfl (by decide)).2 rfl rfl).1,
   ((C4_invalid_credentials_indistinguishable findFixture compareFixture isEmailFixture
      stOk encodeFixture "k" 0 "b@x" "wrong" "ip" "ua" u0 rfl (by decide)).2 rfl rfl).2 rfl⟩

/-- C5 counterexample: in the first login variant, a login attempt for the
registered user `"b@x"` whose password does not verify returns 401 but
appends **no** login-history entry (and no session) — refuting "every login
attempt that fails because the password does not verify appends exactly one
LoginHistoryEntry". -/
theorem C5_failed_login_no_audit_counterexample :
    (loginV1 findFixture compareFixture isEmailFixture stOk encodeFixture
        "k" 0 "b@x" "wrong" "ip" "ua").newHistory = [] ∧
      (loginV1 findFixture compareFixture isEmailFixture stOk encodeFixture
        "k" 0 "b@x" "wrong" "ip" "ua").newSessions = [] ∧
      (loginV1 findFixture compareFixture isEmailFixture stOk encodeFixture
        "k" 0 "b@x" "wrong" "ip" "ua").status = 401 ∧
      findFixture "b@x" = some u0 ∧
      compareFixture "wrong" u0.PasswordHash = false :=
  ⟨rfl, rfl, rfl, rfl, rfl⟩

/-- C5 (amended): a wrong-password login attempt creates no Session in
either variant; in the second variant (whose audit write succeeds) it
appends exactly one LoginHistoryEntry with `Successful: false` and
`FailureReason: "Invalid password"` attached to the attempted user's id,
while in the first variant it appends no entry at all. -/
theorem C5_failed_login_audit_amended
    (find : String → Option StoredUser) (compare : String → String → Bool)
    (isEmail : String → Bool) (st : StoreBehavior) (encode : Jwt → String)
    (secret : String) (now : Nat) (e p ip ua : String) (u : StoredUser)
    (he : isEmail e = true) (hp : 1 ≤ p.length) (hf : find e = some u)
    (hc : compare p u.PasswordHash = false) (hh : st.historyCreateFails = false) :
    (loginV2 find compare isEmail st encode secret now e p ip ua).newHistory
        = [⟨u.Id, false, some "Invalid password", ip, ua⟩] ∧
      (loginV2 find compare isEmail st encode secret now e p ip ua).newSessions = [] ∧
      (loginV2 find compare isEmail st encode secret now e p ip ua).status = 401 ∧
      (loginV1 find compare isEmail st encode secret now e p ip ua).newHistory = [] ∧
      (loginV1 find compare isEmail st encode secret now e p ip ua).newSessions = [] ∧
      (loginV1 find compare isEmail st encode secret now e p ip ua).status = 401 := by
  refine ⟨?_, ?_, ?_, ?_, ?_, ?_⟩ <;>
    simp [loginV1, loginV2, he, hf, hc, hh, Nat.not_lt.mpr hp]

/-- C5 witness: the amended audit behavior evaluated on a concrete store. -/
theorem C5_failed_login_audit_amended_witness :
    (loginV2 findFixture compareFixture isEmailFixture stOk encodeFixture
        "k" 0 "b@x" "wrong" "ip" "ua").newHistory
        = [⟨"u1", false, some "Invalid password", "ip", "ua"⟩] ∧
      (loginV2 findFixture compareFixture isEmailFixture stOk encodeFixture
        "k" 0 "b@x" "wrong" "ip" "ua").newSessions = [] ∧
      (loginV2 findFixture compareFixture isEmailFixture stOk encodeFixture
        "k" 0 "b@x" "wrong" "ip" "ua").status = 401 ∧
      (loginV1 findFixture compareFixture isEmailFixture stOk encodeFixture
        "k" 0 "b@x" "wrong" "ip" "ua").newHistory = [] :=
  ⟨(C5_failed_login_audit_amended findFixture compareFixture isEmailFixture stOk
      encodeFixture "k" 0 "b@x" "wrong" "ip" "ua" u0 rfl (by decide) rfl rfl rfl).1,
   (C5_failed_login_audit_amended findFixture compareFixture isEmailFixture stOk
      encodeFixture "k" 0 "b@x" "wrong" "ip" "ua" u0 rfl (by decide) rfl rfl rfl).2.1,
   (C5_failed_login_audit_amended findFixture compareFixture isEmailFixture stOk
      encodeFixture "k" 0 "b@x" "wrong" "ip" "ua" u0 rfl (by decide) rfl rfl rfl).2.2.1,
   (C5_failed_login_audit_amended findFixture compareFixture isEmailFixture stOk
      encodeFixture "k" 0 "b@x" "wrong" "ip" "ua" u0 rfl (by decide) rfl rfl rfl).2.2.2.1⟩

/-- C6 counterexample: with valid credentials for `"b@x"` (the password
verifies) but a session-row insert that throws, the second login variant
answers 500 `"Internal server error"` — not the 200 success the claim
requires — so a session/audit write failure does change the outcome into a
user-visible error. -/
theorem C6_audit_failure_promoted_counterexample :
    (loginV2 findFixture compareFixture isEmailFixture stSessionFail encodeFixture
        "k" 0 "b@x" "pw" "ip" "ua").response = (500, .err "Internal server error") ∧
      (loginV2 findFixture compareFixture isEmailFixture stSessionFail encodeFixture
        "k" 0 "b@x" "pw" "ip" "ua").status ≠ 200 ∧
      findFixture "b@x" = some u0 ∧
      compareFixture "pw" u0.PasswordHash = true :=
  ⟨rfl, by decide, rfl, rfl⟩

/-- C6 (amended): after a successful credential check, a failing session or
audit-log write is **not** swallowed: the thrown write reaches the handler's
catch block and the caller receives 500 (`"Internal server error"` in the
second variant, `"Something went wrong"` in the first) instead of the 200
success; a session row already inserted before a failing history write is
kept. -/
theorem C6_audit_write_failure_aborts_login_amended
    (find : String → Option StoredUser) (compare : String → String → Bool)
    (isEmail : String → Bool) (st : StoreBehavior) (encode : Jwt → String)
    (secret : String) (now : Nat) (e p ip ua : String) (u : StoredUser)
    (he : isEmail e = true) (hp : 1 ≤ p.length) (hf : find e = some u)
    (hc : compare p u.PasswordHash = true) :
    (st.sessionCreateFails = true →
      (loginV2 find compare isEmail st encode secret now e p ip ua).response
          = (500, .err "Internal server error") ∧
      (loginV2 find compare isEmail st encode secret now e p ip ua).newSessions = [] ∧
      (loginV2 find compare isEmail st encode secret now e p ip ua).newHistory = []) ∧
    (st.sessionCreateFails = false → st.historyCreateFails = true →
      (loginV2 find compare isEmail st encode secret now e p ip ua).response
          = (500, .err "Internal server error") ∧
      (loginV2 find compare isEmail st encode secret now e p ip ua).newSessions
          = [⟨u.Id,
              encode (jwtSign (loginTokenPayload u.Id u.Email u.Role (now / 1000)) secret),
              now + 24 * 60 * 60 * 1000, ip, ua⟩] ∧
      (loginV2 find compare isEmail st encode secret now e p ip ua).newHistory = []) ∧
    (st.userUpdateFails = false → st.sessionCreateFails = true →
      (loginV1 find compare isEmail st encode secret now e p ip ua).response
          = (500, .err "Something went wrong")) ∧
    (st.userUpdateFails = false → st.sessionCreateFails = false →
      st.historyCreateFails = true →
      (loginV1 find compare isEmail st encode secret now e p ip ua).response
          = (500, .err "Something went wrong") ∧
      (loginV1 find compare isEmail st encode secret now e p ip ua).newSessions
          = [⟨u.Id,
              encode (jwtSign (loginTokenPayload u.Id u.Email u.Role (now / 1000)) secret),
              now + 24 * 60 * 60 * 1000, ip, ua⟩] ∧
      (loginV1 find compare isEmail st encode secret now e p ip ua).newHistory = []) := by
  refine ⟨fun h1 => ?_, fun h1 h2 => ?_, fun h1 h2 => ?_, fun h1 h2 h3 => ?_⟩
  · simp [loginV2, LoginResult.response, he, hf, hc, h1, Nat.not_lt.mpr hp]
  · simp [loginV2, LoginResult.response, he, hf, hc, h1, h2, Nat.not_lt.mpr hp]
  · simp [loginV1, LoginResult.response, he, hf, hc, h1, h2, Nat.not_lt.mpr hp]
  · simp [loginV1, LoginResult.response, he, hf, hc, h1, h2, h3, Nat.not_lt.mpr hp]

/-- C6 witness: the amended abort behavior evaluated on concrete stores with
a failing session write and a failing history write. -/
theorem C6_audit_write_failure_aborts_login_amended_witness :
    ((loginV2 findFixture compareFixture isEmailFixture stSessionFail encodeFixture
        "k" 0 "b@x" "pw" "ip" "ua").response = (500, .err "Internal server error") ∧
      (loginV2 findFixture compareFixture isEmailFixture stSessionFail encodeFixture
        "k" 0 "b@x" "pw" "ip" "ua").newSessions = [] ∧
      (loginV2 findFixture compareFixture isEmailFixture stSessionFail encodeFixture
        "k" 0 "b@x" "pw" "ip" "ua").newHistory = []) ∧
      ((loginV2 findFixture compareFixture isEmailFixture stHistFail encodeFixture
        "k" 0 "b@x" "pw" "ip" "ua").response = (500, .err "Internal server error") ∧
      (loginV2 findFixture compareFixture isEmailFixture stHistFail encodeFixture
        "k" 0 "b@x" "pw" "ip" "ua").newSessions
          = [⟨"u1", "tok", 86400000, "ip", "ua"⟩] ∧
      (loginV2 findFixture compareFixture isEmailFixture stHistFail encodeFixture
        "k" 0 "b@x" "pw" "ip" "ua").newHistory = []) ∧
      (loginV1 findFixture compareFixture isEmailFixture stSessionFail encodeFixture
        "k" 0 "b@x" "pw" "ip" "ua").response = (500, .err "Something went wrong") :=
  ⟨(C6_audit_write_failure_aborts_login_amended findFixture compareFixture
      isEmailFixture stSessionFail encodeFixture "k" 0 "b@x" "pw" "ip" "ua" u0
      rfl (by decide) rfl rfl).1 rfl,
   (C6_audit_write_failure_aborts_login_amended findFixture compareFixture
      isEmailFixture stHistFail encodeFixture "k" 0 "b@x" "pw" "ip" "ua" u0
      rfl (by decide) rfl rfl).2.1 rfl rfl,
   (C6_audit_write_failure_aborts_login_amended findFixture compareFixture
      isEmailFixture stSessionFail encodeFixture "k" 0 "b@x" "pw" "ip" "ua" u0
      rfl (by decide) rfl rfl).2.2.1 rfl rfl⟩

end Poufmaker

namespace Poufmaker

/-- A concrete empty user table. -/
def findEmpty : String → Option StoredUser := fun _ => none

/-- A concrete bcrypt.hash oracle. -/
def hashOfFixture : String → String → String := fun p s => p ++ s

/-- C7: every successful login and register response carries a user object
built from exactly `(Id, Email, FullName, Role)` of the stored user —
`{Id, Email, FullName, Role}` keys in the variant-1 login, lower-case
`{id, email, fullName, role}` elsewhere, with a token derived only from id,
e-mail and role — and the projection producing the user object does not
depend on `PasswordHash` or `PasswordSalt`, so no reader of the response can
observe the stored hash or salt. -/
theorem C7_response_conceals_credentials
    (find : String → Option StoredUser) (compare : String → String → Bool)
    (isEmail : String → Bool) (encode : Jwt → String)
    (hashOf : String → String → String)
    (secret salt newId : String) (now : Nat) (e p ip ua fn pw : String)
    (u : StoredUser) (he : isEmail e = true) (hp : 1 ≤ p.length) :
    (find e = some u → compare p u.PasswordHash = true →
      (loginV2 find compare isEmail stOk encode secret now e p ip ua).body
          = .okV2 "Login successful" ⟨u.Id, u.Email, u.FullName, u.Role⟩
              (jwtSign (loginTokenPayload u.Id u.Email u.Role (now / 1000)) secret) ∧
      (loginV1 find compare isEmail stOk encode secret now e p ip ua).body
          = .okV1 (jwtSign (loginTokenPayload u.Id u.Email u.Role (now / 1000)) secret)
              ⟨u.Id, u.Email, u.FullName, u.Role⟩) ∧
    (find e = none → 1 ≤ fn.length → 6 ≤ pw.length →
      (registerV1 find isEmail hashOf salt newId (.str fn) (.str e) (.str pw) .undef).body
          = .okV1 "User registered successfully" ⟨newId, e, fn, "client"⟩) ∧
    (find e = none → 1 ≤ e.length → 1 ≤ fn.length → 8 ≤ pw.length →
      (registerV2 find isEmail hashOf encode salt newId secret now ip ua
          (.str e) .undef (.str pw) .undef (.str fn) .undef .undef .undef .undef .undef).body
          = .okV2 "User registered successfully" ⟨newId, e, fn, "client"⟩
              (jwtSign (registerTokenPayloadP11 newId "client" (now / 1000)) secret)) ∧
    (∀ (i em f r h1 s1 h2 s2 : String) (pn : Option String),
      viewOf ⟨i, em, f, r, h1, s1, pn⟩ = viewOf ⟨i, em, f, r, h2, s2, pn⟩) := by
  refine ⟨fun hf hc => ?_, fun hf hfn hpw => ?_, fun hf he1 hfn hpw => ?_,
    fun i em f r h1 s1 h2 s2 pn => rfl⟩
  · constructor <;>
      simp [loginV1, loginV2, stOk, he, hf, hc, Nat.not_lt.mpr hp, viewOf, viewCapOf]
  · simp [registerV1, registerSchemaV1FirstError, minLenFieldError, emailFieldError,
      optionalStringFieldError, Option.orElse, he, hf, viewOf,
      Nat.not_lt.mpr hfn, Nat.not_lt.mpr hpw]
  · have heNe : (e == "") = false :=
      beq_eq_false_iff_ne.mpr (fun h => absurd (h ▸ he1) (by decide))
    have hpwNe : (pw == "") = false :=
      beq_eq_false_iff_ne.mpr (fun h => absurd (h ▸ hpw) (by decide))
    have hfnNe : (fn == "") = false :=
      beq_eq_false_iff_ne.mpr (fun h => absurd (h ▸ hfn) (by decide))
    simp [registerV2, registerSchemaV2FirstError, emailFieldError, minLenFieldError,
      optionalStringFieldError, roleEnumFieldError, transformedRole, jsOr,
      JsVal.truthy, Option.orElse, heNe, hpwNe, hfnNe, he, hf, viewOf,
      Nat.not_lt.mpr hpw, Nat.not_lt.mpr hfn]

/-- C7 witness: the response shapes evaluated on a concrete store for a
login with valid credentials and for fresh registrations. -/
theorem C7_response_conceals_credentials_witness :
    (loginV2 findFixture compareFixture isEmailFixture stOk encodeFixture
        "k" 0 "b@x" "pw" "ip" "ua").body
        = .okV2 "Login successful" ⟨"u1", "b@x", "Alice", "client"⟩
            (jwtSign (loginTokenPayload "u1" "b@x" "client" 0) "k") ∧
      (registerV1 findEmpty isEmailFixture hashOfFixture "salt" "u9"
        (.str "Nina") (.str "n@x") (.str "123456") .undef).body
        = .okV1 "User registered successfully" ⟨"u9", "n@x", "Nina", "client"⟩ ∧
      (registerV2 findEmpty isEmailFixture hashOfFixture encodeFixture "salt" "u9"
        "k" 0 "ip" "ua" (.str "n@x") .undef (.str "12345678") .undef (.str "Nina")
        .undef .undef .undef .undef .undef).body
        = .okV2 "User registered successfully" ⟨"u9", "n@x", "Nina", "client"⟩
            (jwtSign (registerTokenPayloadP11 "u9" "client" 0) "k") :=
  ⟨((C7_response_conceals_credentials findFixture compareFixture isEmailFixture
      encodeFixture hashOfFixture "k" "salt" "u9" 0 "b@x" "pw" "ip" "ua" "Nina"
      "12345678" u0 rfl (by decide)).1 rfl rfl).1,
   (C7_response_conceals_credentials findEmpty compareFixture isEmailFixture
      encodeFixture hashOfFixture "k" "salt" "u9" 0 "n@x" "pw" "ip" "ua" "Nina"
      "123456" u0 rfl (by decide)).2.1 rfl (by decide) (by decide),
   (C7_response_conceals_credentials findEmpty compareFixture isEmailFixture
      encodeFixture hashOfFixture "k" "salt" "u9" 0 "n@x" "pw" "ip" "ua" "Nina"
      "12345678" u0 rfl (by decide)).2.2.1 rfl (by decide) (by decide) (by decide)⟩

end Poufmaker

namespace Poufmaker

/-- C8 counterexample: the first register variant accepts the 7-character
password `"1234567"` — registration answers 201 and creates a user record —
because its zod schema requires only `.min(6)`, refuting "every register
request whose Password is shorter than 8 characters fails with 400 and no
user record is created". -/
theorem C8_short_password_accepted_counterexample :
    (registerV1 findEmpty isEmailFixture hashOfFixture "salt" "u9"
        (.str "Nina") (.str "n@x") (.str "1234567") .undef).status = 201 ∧
      (registerV1 findEmpty isEmailFixture hashOfFixture "salt" "u9"
        (.str "Nina") (.str "n@x") (.str "1234567") .undef).createdUsers.length = 1 ∧
      ("1234567" : String).length < 8 :=
  ⟨rfl, rfl, by decide⟩

/-- C8 (amended): the password minimum length is 8 only in the part_010 /
part_011 register variant: there a non-empty password shorter than 8 fails
with 400 `"Password must be at least 8 characters"` and creates nothing,
and length ≥ 8 passes the length check.  In the
app/api/auth/register/route.ts variant the minimum is 6: passwords shorter
than 6 fail with 400 `"Password must be at least 6 characters"` and create
nothing, and length ≥ 6 passes the length check. -/
theorem C8_password_minlength_amended
    (find : String → Option StoredUser) (isEmail : String → Bool)
    (hashOf : String → String → String) (encode : Jwt → String)
    (salt newId secret ip ua : String) (now : Nat) (fn e pw : String)
    (he : isEmail e = true) (hfn : 1 ≤ fn.length) :
    (pw.length < 6 →
      registerV1 find isEmail hashOf salt newId (.str fn) (.str e) (.str pw) .undef
        = ⟨400, .err "Password must be at least 6 characters", [], [], []⟩) ∧
    (6 ≤ pw.length →
      registerSchemaV1FirstError isEmail (.str fn) (.str e) (.str pw) .undef = none) ∧
    (1 ≤ e.length → 1 ≤ pw.length → pw.length < 8 →
      registerV2 find isEmail hashOf encode salt newId secret now ip ua
        (.str e) .undef (.str pw) .undef (.str fn) .undef .undef .undef .undef .undef
        = ⟨400, .err "Password must be at least 8 characters", [], [], []⟩) ∧
    (1 ≤ e.length → 8 ≤ pw.length →
      registerSchemaV2FirstError isEmail (.str e) (.str pw) (.str fn) .undef
        (.str "client") = none) := by
  refine ⟨fun hlt => ?_, fun hge => ?_, fun he1 hpw1 hlt => ?_, fun he1 hge => ?_⟩
  · simp [registerV1, registerSchemaV1FirstError, minLenFieldError, emailFieldError,
      optionalStringFieldError, Option.orElse, he, hlt, Nat.not_lt.mpr hfn]
  · simp [registerSchemaV1FirstError, minLenFieldError, emailFieldError,
      optionalStringFieldError, Option.orElse, he,
      Nat.not_lt.mpr hfn, Nat.not_lt.mpr hge]
  · have heNe : (e == "") = false :=
      beq_eq_false_iff_ne.mpr (fun h => absurd (h ▸ he1) (by decide))
    have hpwNe : (pw == "") = false :=
      beq_eq_false_iff_ne.mpr (fun h => absurd (h ▸ hpw1) (by decide))
    have hfnNe : (fn == "") = false :=
      beq_eq_false_iff_ne.mpr (fun h => absurd (h ▸ hfn) (by decide))
    simp [registerV2, registerSchemaV2FirstError, emailFieldError, minLenFieldError,
      optionalStringFieldError, roleEnumFieldError, transformedRole, jsOr,
      JsVal.truthy, Option.orElse, heNe, hpwNe, hfnNe, he, hlt]
  · simp [registerSchemaV2FirstError, emailFieldError, minLenFieldError,
      optionalStringFieldError, roleEnumFieldError, Option.orElse, he,
      Nat.not_lt.mpr hfn, Nat.not_lt.mpr hge]

/-- C8 witness: the two length thresholds evaluated on concrete passwords of
lengths 5, 6, 7 and 8. -/
theorem C8_password_minlength_amended_witness :
    registerV1 findEmpty isEmailFixture hashOfFixture "salt" "u9"
        (.str "Nina") (.str "n@x") (.str "12345") .undef
        = ⟨400, .err "Password must be at least 6 characters", [], [], []⟩ ∧
      registerSchemaV1FirstError isEmailFixture (.str "Nina") (.str "n@x")
        (.str "123456") .undef = none ∧
      registerV2 findEmpty isEmailFixture hashOfFixture encodeFixture "salt" "u9"
        "k" 0 "ip" "ua" (.str "n@x") .undef (.str "1234567") .undef (.str "Nina")
        .undef .undef .undef .undef .undef
        = ⟨400, .err "Password must be at least 8 characters", [], [], []⟩ ∧
      registerSchemaV2FirstError isEmailFixture (.str "n@x") (.str "12345678")
        (.str "Nina") .undef (.str "client") = none :=
  ⟨(C8_password_minlength_amended findEmpty isEmailFixture hashOfFixture
      encodeFixture "salt" "u9" "k" "ip" "ua" 0 "Nina" "n@x" "12345"
      rfl (by decide)).1 (by decide),
   (C8_password_minlength_amended findEmpty isEmailFixture hashOfFixture
      encodeFixture "salt" "u9" "k" "ip" "ua" 0 "Nina" "n@x" "123456"
      rfl (by decide)).2.1 (by decide),
   (C8_password_minlength_amended findEmpty isEmailFixture hashOfFixture
      encodeFixture "salt" "u9" "k" "ip" "ua" 0 "Nina" "n@x" "1234567"
      rfl (by decide)).2.2.1 (by decide) (by decide) (by decide),
   (C8_password_minlength_amended findEmpty isEmailFixture hashOfFixture
      encodeFixture "salt" "u9" "k" "ip" "ua" 0 "Nina" "n@x" "12345678"
      rfl (by decide)).2.2.2 (by decide) (by decide)⟩

end Poufmaker

namespace Poufmaker

/-- C9 counterexample: a register request that **provides** the `Role` field
as the empty string (and omits `role`) is not stored verbatim and is not
rejected: JS `||` treats the provided `""` as falsy, so the stored role
defaults to `"client"` — refuting "only defaults the stored Role to client
when the request omits both Role and role fields". -/
theorem C9_role_empty_string_counterexample :
    (registerV2 findEmpty isEmailFixture hashOfFixture encodeFixture "salt" "u9"
        "k" 0 "ip" "ua" (.str "n@x") .undef (.str "12345678") .undef (.str "Nina")
        .undef .undef .undef (.str "") .undef).createdUsers
        = [⟨"u9", "n@x", "Nina", "client", "12345678salt", "salt", none⟩] ∧
      (registerV2 findEmpty isEmailFixture hashOfFixture encodeFixture "salt" "u9"
        "k" 0 "ip" "ua" (.str "n@x") .undef (.str "12345678") .undef (.str "Nina")
        .undef .undef .undef (.str "") .undef).status = 201 ∧
      JsVal.str "" ≠ JsVal.undef :=
  ⟨rfl, rfl, by decide⟩

/-- C9 (amended): the part_011 register endpoint stores a caller-supplied
truthy (non-empty) `Role` string from the enum — including `"admin"` —
verbatim in the created user record, with no restriction on which caller may
pick it; the stored role defaults to `"client"` exactly when the coalesced
`Role`/`role` fields are falsy (both absent, `null`, or empty strings). -/
theorem C9_role_stored_verbatim_amended
    (find : String → Option StoredUser) (isEmail : String → Bool)
    (hashOf : String → String → String) (encode : Jwt → String)
    (salt newId secret ip ua : String) (now : Nat) (e fn pw r : String)
    (he : isEmail e = true) (hfresh : find e = none) (he1 : 1 ≤ e.length)
    (hfn : 1 ≤ fn.length) (hpw : 8 ≤ pw.length)
    (hr : r = "client" ∨ r = "admin" ∨ r = "upholsterer") :
    ((registerV2 find isEmail hashOf encode salt newId secret now ip ua
        (.str e) .undef (.str pw) .undef (.str fn) .undef .undef .undef
        (.str r) .undef).createdUsers.map (fun u => u.Role) = [r]) ∧
    ((registerV2 find isEmail hashOf encode salt newId secret now ip ua
        (.str e) .undef (.str pw) .undef (.str fn) .undef .undef .undef
        (.str r) .undef).status = 201) ∧
    ((registerV2 find isEmail hashOf encode salt newId secret now ip ua
        (.str e) .undef (.str pw) .undef (.str fn) .undef .undef .undef
        .undef .undef).createdUsers.map (fun u => u.Role) = ["client"]) := by
  have heNe : (e == "") = false :=
    beq_eq_false_iff_ne.mpr (fun h => absurd (h ▸ he1) (by decide))
  have hpwNe : (pw == "") = false :=
    beq_eq_false_iff_ne.mpr (fun h => absurd (h ▸ hpw) (by decide))
  have hfnNe : (fn == "") = false :=
    beq_eq_false_iff_ne.mpr (fun h => absurd (h ▸ hfn) (by decide))
  refine ⟨?_, ?_, ?_⟩ <;>
    rcases hr with h | h | h <;> subst h <;>
      simp [registerV2, registerSchemaV2FirstError, emailFieldError, minLenFieldError,
        optionalStringFieldError, roleEnumFieldError, transformedRole, jsOr,
        JsVal.truthy, Option.orElse, heNe, hpwNe, hfnNe, he, hfresh,
        Nat.not_lt.mpr hpw, Nat.not_lt.mpr hfn]

/-- C9 witness: a caller self-assigns `Role: "admin"` at registration and
the created record stores `"admin"`; omitting both role fields stores
`"client"`. -/
theorem C9_role_stored_verbatim_amended_witness :
    ((registerV2 findEmpty isEmailFixture hashOfFixture encodeFixture "salt" "u9"
        "k" 0 "ip" "ua" (.str "n@x") .undef (.str "12345678") .undef (.str "Nina")
        .undef .undef .undef (.str "admin") .undef).createdUsers.map
          (fun u => u.Role) = ["admin"]) ∧
      ((registerV2 findEmpty isEmailFixture hashOfFixture encodeFixture "salt" "u9"
        "k" 0 "ip" "ua" (.str "n@x") .undef (.str "12345678") .undef (.str "Nina")
        .undef .undef .undef (.str "admin") .undef).status = 201) ∧
      ((registerV2 findEmpty isEmailFixture hashOfFixture encodeFixture "salt" "u9"
        "k" 0 "ip" "ua" (.str "n@x") .undef (.str "12345678") .undef (.str "Nina")
        .undef .undef .undef .undef .undef).createdUsers.map
          (fun u => u.Role) = ["client"]) :=
  ⟨(C9_role_stored_verbatim_amended findEmpty isEmailFixture hashOfFixture
      encodeFixture "salt" "u9" "k" "ip" "ua" 0 "n@x" "Nina" "12345678" "admin"
      rfl rfl (by decide) (by decide) (by decide) (Or.inr (Or.inl rfl))).1,
   (C9_role_stored_verbatim_amended findEmpty isEmailFixture hashOfFixture
      encodeFixture "salt" "u9" "k" "ip" "ua" 0 "n@x" "Nina" "12345678" "admin"
      rfl rfl (by decide) (by decide) (by decide) (Or.inr (Or.inl rfl))).2.1,
   (C9_role_stored_verbatim_amended findEmpty isEmailFixture hashOfFixture
      encodeFixture "salt" "u9" "k" "ip" "ua" 0 "n@x" "Nina" "12345678" "admin"
      rfl rfl (by decide) (by decide) (by decide) (Or.inr (Or.inl rfl))).2.2⟩

/-- C10: in the part_011 registration path the stored session `Token` is
`token.substring(0, 250)` of the issued JWT's wire form; the stored value is
always a prefix of the issued token string of length at most 250, it equals
the issued token exactly when that string is at most 250 characters, and it
differs from it whenever the string is longer than 250 characters. -/
theorem C10_session_token_truncation
    (find : String → Option StoredUser) (isEmail : String → Bool)
    (hashOf : String → String → String) (encode : Jwt → String)
    (salt newId secret ip ua : String) (now : Nat) (e fn pw : String)
    (he : isEmail e = true) (hfresh : find e = none) (he1 : 1 ≤ e.length)
    (hfn : 1 ≤ fn.length) (hpw : 8 ≤ pw.length) :
    ((registerV2 find isEmail hashOf encode salt newId secret now ip ua
        (.str e) .undef (.str pw) .undef (.str fn)
        .undef .undef .undef .undef .undef).newSessions
      = [⟨newId,
          jsSubstring250 (encode (jwtSign
            (registerTokenPayloadP11 newId "client" (now / 1000)) secret)),
          now + 60 * 60 * 1000, ip, ua⟩]) ∧
    (∀ s : String,
      (jsSubstring250 s).data <+: s.data ∧
      (jsSubstring250 s).length ≤ 250 ∧
      (s.length ≤ 250 → jsSubstring250 s = s) ∧
      (250 < s.length → jsSubstring250 s ≠ s)) := by
  have heNe : (e == "") = false :=
    beq_eq_false_iff_ne.mpr (fun h => absurd (h ▸ he1) (by decide))
  have hpwNe : (pw == "") = false :=
    beq_eq_false_iff_ne.mpr (fun h => absurd (h ▸ hpw) (by decide))
  have hfnNe : (fn == "") = false :=
    beq_eq_false_iff_ne.mpr (fun h => absurd (h ▸ hfn) (by decide))
  refine ⟨?_, fun s => ⟨?_, ?_, fun h => ?_, fun h => ?_⟩⟩
  · simp [registerV2, registerSchemaV2FirstError, emailFieldError, minLenFieldError,
      optionalStringFieldError, roleEnumFieldError, transformedRole, jsOr,
      JsVal.truthy, Option.orElse, heNe, hpwNe, hfnNe, he, hfresh,
      Nat.not_lt.mpr hpw, Nat.not_lt.mpr hfn]
  · exact List.take_prefix 250 s.data
  · show (s.data.take 250).length ≤ 250
    rw [List.length_take]
    omega
  · show (⟨s.data.take 250⟩ : String) = s
    have : s.data.take 250 = s.data := List.take_of_length_le h
    rw [this]
  · intro heq
    have hdl : (s.data.take 250).length = s.data.length := congrArg String.length heq
    rw [List.length_take] at hdl
    have hgt : 250 < s.data.length := h
    omega

/-- C10 witness: the stored session token evaluated on a concrete
registration, and the truncation evaluated on a short and on a 251-character
token string. -/
theorem C10_session_token_truncation_witness :
    ((registerV2 findEmpty isEmailFixture hashOfFixture encodeFixture "salt" "u9"
        "k" 0 "ip" "ua" (.str "n@x") .undef (.str "12345678") .undef (.str "Nina")
        .undef .undef .undef .undef .undef).newSessions
      = [⟨"u9",
          jsSubstring250 (encodeFixture (jwtSign
            (registerTokenPayloadP11 "u9" "client" 0) "k")),
          3600000, "ip", "ua"⟩]) ∧
      jsSubstring250 "abc" = "abc" ∧
      jsSubstring250 (String.mk (List.replicate 251 'a'))
        ≠ String.mk (List.replicate 251 'a') :=
  ⟨(C10_session_token_truncation findEmpty isEmailFixture hashOfFixture
      encodeFixture "salt" "u9" "k" "ip" "ua" 0 "n@x" "Nina" "12345678"
      rfl rfl (by decide) (by decide) (by decide)).1,
   ((C10_session_token_truncation findEmpty isEmailFixture hashOfFixture
      encodeFixture "salt" "u9" "k" "ip" "ua" 0 "n@x" "Nina" "12345678"
      rfl rfl (by decide) (by decide) (by decide)).2 "abc").2.2.1 (by decide),
   ((C10_session_token_truncation findEmpty isEmailFixture hashOfFixture
      encodeFixture "salt" "u9" "k" "ip" "ua" 0 "n@x" "Nina" "12345678"
      rfl rfl (by decide) (by decide) (by decide)).2
        (String.mk (List.replicate 251 'a'))).2.2.2
      (by
        have hlen : (String.mk (List.replicate 251 'a')).length = 251 := by
          show (List.replicate 251 'a').length = 251
          exact List.length_replicate 251 'a'
        omega)⟩

end Poufmaker
